import Mathlib

/-!
# The `Camera` wrapper of `src/Camera.cpp`

A shallow embedding of the `Camera` class: the object's fields are a record,
each member function is a function on the record together with the state of
the outside world (the camera SDK), and every call that leaves the class is
appended to a trace.

Conventions of the embedding.

* The vendor SDK is a parameter (`Sdk W`): each SDK entry point takes the
  hidden device state `W` and returns its result with the next device state,
  so successive calls may answer differently.
* `int` is a 32-bit two's complement integer; products are reduced with
  `wrapInt`.
* `std::vector<unsigned char>` is a `List BYTE`; the SDK writes through the
  pointer it is given and cannot change the vector's size (`writeThrough`).
  A vector has storage once it has held an element and keeps it when it is
  resized; the address of its first element is the start of that storage, and
  the null pointer while there is none (`rgbImageStorage`).
* `assert` is enabled (no `NDEBUG`): a failed assertion ends the call with
  `Fault.assertionFailure`; an exception thrown by the standard library ends
  it with the corresponding fault.
* `float` values are only stored and passed on, never computed with, except
  for the display height, which is left to the parameter `displayHeight`.
-/

set_option linter.dupNamespace false

namespace Lumenera

/-! ## Types of the SDK header -/

/-- An SDK handle is a pointer value; zero is the null pointer. -/
abbrev HANDLE := Nat

/-- The null pointer. -/
def NULL : HANDLE := 0

/-- One `unsigned char`. -/
abbrev BYTE := Fin 256

/-- A `float` that is stored or handed to the SDK. -/
abbrev FLOAT := Rat

/-- The second argument of `LucamStreamVideoControl`. -/
inductive StreamCmd where
  | STOP_STREAMING
  | START_STREAMING
  deriving DecidableEq, Repr

/-- The property identifiers used by `Camera.cpp`. -/
inductive Property where
  | LUCAM_PROP_GAIN
  | LUCAM_PROP_AUTO_EXP_TARGET
  | LUCAM_PROP_EXPOSURE
  | LUCAM_PROP_DIGITAL_GAIN_BLUE
  | LUCAM_PROP_DIGITAL_GAIN_GREEN
  | LUCAM_PROP_DIGITAL_GAIN_RED
  deriving DecidableEq, Repr

/-- The flag word of `LucamSetProperty`: which of `LUCAM_PROP_FLAG_AUTO` and
`LUCAM_PROP_FLAG_USE` are set. The literal `0` is both cleared. -/
structure PropFlags where
  LUCAM_PROP_FLAG_AUTO : Bool
  LUCAM_PROP_FLAG_USE : Bool
  deriving DecidableEq, Repr

/-- The fields of `LUCAM_IMAGE_FORMAT` that `Camera.cpp` reads or writes. -/
structure LUCAM_IMAGE_FORMAT where
  Size : Nat
  Width : Nat
  Height : Nat
  ImageSize : Nat
  deriving DecidableEq, Repr

/-- The fields of `LUCAM_CONVERSION_PARAMS` that `Camera.cpp` writes. -/
structure LUCAM_CONVERSION_PARAMS where
  Size : Nat
  DemosaicMethod : Nat
  CorrectionMatrix : Nat
  FlipX : Bool
  FlipY : Bool
  Hue : FLOAT
  Saturation : FLOAT
  UseColorGainsOverWb : Bool
  DigitalGainRed : FLOAT
  DigitalGainGreen : FLOAT
  DigitalGainBlue : FLOAT
  deriving DecidableEq

/-- The vendor SDK as seen from `Camera.cpp`: the constants of its header
and its entry points. `W` is the hidden state of driver and device. An entry
point with an out-parameter receives the current contents of the pointee and
returns the contents it leaves there. -/
structure Sdk (W : Type) where
  /-- The value of `sizeof(LUCAM_IMAGE_FORMAT)`. -/
  sizeofImageFormat : Nat
  /-- The value of `sizeof(LUCAM_CONVERSION_PARAMS)`. -/
  sizeofConversionParams : Nat
  LUCAM_CM_FLUORESCENT : Nat
  LUCAM_DM_FAST : Nat
  /-- The `int` stored by `height = factor` after
  `factor = (float)Height / (float)Width; factor *= width`, as a function of
  `Height`, `Width` and `width`. -/
  displayHeight : Nat → Nat → Int → Int
  LucamCameraOpen : Int → W → HANDLE × W
  LucamSetProperty : HANDLE → Property → FLOAT → PropFlags → W → Bool × W
  LucamGetProperty : HANDLE → Property → FLOAT → W → (Bool × FLOAT) × W
  LucamStreamVideoControl : HANDLE → StreamCmd → W → Bool × W
  LucamGetVideoImageFormat : HANDLE → LUCAM_IMAGE_FORMAT → W → (Bool × LUCAM_IMAGE_FORMAT) × W
  LucamOneShotAutoWhiteBalance : HANDLE → Nat → Nat → Nat → Nat → W → Bool × W
  LucamDigitalWhiteBalance : HANDLE → Nat → Nat → Nat → Nat → W → Bool × W
  /-- Arguments: handle, the destination buffer, the raw frame, the image
  format and the conversion parameters. Returns the bytes it stores from the
  start of the destination. -/
  LucamConvertFrameToRgb24Ex :
    HANDLE → List BYTE → List BYTE → LUCAM_IMAGE_FORMAT → LUCAM_CONVERSION_PARAMS → W →
      (Bool × List BYTE) × W

/-- A call that leaves the class: an SDK entry point with the arguments the
class chose, or the creation of a display window. -/
inductive Event where
  | LucamCameraOpen (index : Int)
  | LucamSetProperty (h : HANDLE) (p : Property) (value : FLOAT) (flags : PropFlags)
  | LucamGetProperty (h : HANDLE) (p : Property)
  | LucamStreamVideoControl (h : HANDLE) (cmd : StreamCmd)
  | LucamGetVideoImageFormat (h : HANDLE)
  | LucamOneShotAutoWhiteBalance (h : HANDLE) (startX startY width height : Nat)
  | LucamDigitalWhiteBalance (h : HANDLE) (startX startY width height : Nat)
  | LucamConvertFrameToRgb24Ex (h : HANDLE) (destSize : Nat) (raw : List BYTE)
  | namedWindow (winname : String)
  deriving DecidableEq

/-- How a call ends when it does not return normally. -/
inductive Fault where
  /-- The expression of an `assert` was false. -/
  | assertionFailure
  /-- The call `std::vector::resize` threw `std::length_error`. -/
  | lengthError
  /-- The call `sprintf` wrote past the end of its buffer. -/
  | bufferOverflow
  deriving DecidableEq, Repr

/-- A pointer returned to the caller: null, or the address of an element of
the `rgbImage` vector. -/
inductive Ptr where
  | null
  | rgbImage (i : Nat)
  deriving DecidableEq, Repr

/-! ## The object -/

/-- The data members of `Camera`, with the types of their uses in
`Camera.cpp`. The field `rgbImageStorage` is part of the state of the
`rgbImage` vector: whether the vector has storage, that is whether its start
address is non-null. -/
structure Camera where
  cameraIndex : Int
  hCamera : HANDLE
  targetIntensity : Int
  streaming : Bool
  rgbImageOwnerIsProducer : Bool
  width : Int
  height : Int
  imageFormat : LUCAM_IMAGE_FORMAT
  conversionParams : LUCAM_CONVERSION_PARAMS
  rawImage : List BYTE
  rgbImage : List BYTE
  rgbImageStorage : Bool
  m_unprocessedWindowName : String
  m_processedWindowName : String
  deriving DecidableEq

/-- A `Camera` object together with the world it talks to: the hidden state
of the SDK and the calls made so far, oldest first. -/
structure Sys (W : Type) where
  cam : Camera
  world : W
  trace : List Event

/-- Records a call `e` that left the world in state `w`. -/
def Sys.call {W : Type} (s : Sys W) (e : Event) (w : W) : Sys W :=
  { s with world := w, trace := s.trace ++ [e] }

/-- The largest `int`. -/
def INT_MAX : Int := 2 ^ 31 - 1

/-- Reduction of an integer to a 32-bit two's complement `int`. -/
def wrapInt (x : Int) : Int := (x + 2 ^ 31) % 2 ^ 32 - 2 ^ 31

/-- The call `v.resize(n)` on a byte vector: the first `n` elements are kept
and new elements are value-initialised. -/
def vectorResize (v : List BYTE) (n : Nat) : List BYTE :=
  v.take n ++ List.replicate (n - v.length) 0

/-- The effect on a buffer `dst` of storing the bytes `out` from its start:
bytes past the end of the buffer are not part of the vector. -/
def writeThrough (dst out : List BYTE) : List BYTE :=
  out.take dst.length ++ dst.drop out.length

/-- Whether `p` addresses an existing element of the vectors of `c`. -/
def Ptr.valid (c : Camera) : Ptr → Bool
  | Ptr.null => false
  | Ptr.rgbImage i => decide (i < c.rgbImage.length)

/-- The constructor `Camera::Camera()`. The two SDK records are not
initialised by it; `fmt` and `cp` are their indeterminate contents. -/
def Camera.Camera (fmt : LUCAM_IMAGE_FORMAT) (cp : LUCAM_CONVERSION_PARAMS) : Lumenera.Camera :=
  { cameraIndex := -1
    hCamera := NULL
    targetIntensity := 0
    streaming := false
    rgbImageOwnerIsProducer := true
    width := 0
    height := 0
    imageFormat := fmt
    conversionParams := cp
    rawImage := []
    rgbImage := []
    rgbImageStorage := false
    m_unprocessedWindowName := ""
    m_processedWindowName := "" }

/-- The text `sprintf` produces for the format `"Camera %d"`. -/
def sprintfCamera (cameraIndex : Int) : String :=
  "Camera " ++ toString cameraIndex

/-- The function `Camera::name() const`. -/
def Camera.name (c : Lumenera.Camera) : Except Fault String :=
  if c.cameraIndex ≥ 1 then
    -- char buffer[128]: the text and its terminating zero must fit
    if (sprintfCamera c.cameraIndex).length + 1 ≤ 128 then
      .ok (sprintfCamera c.cameraIndex)
    else
      .error Fault.bufferOverflow
  else
    .error Fault.assertionFailure

/-- The function `Camera::startStreaming()`. -/
def Camera.startStreaming {W : Type} (sdk : Sdk W) (s : Sys W) : Sys W :=
  if !s.cam.streaming then
    let r := sdk.LucamStreamVideoControl s.cam.hCamera StreamCmd.START_STREAMING s.world
    let s1 := s.call (Event.LucamStreamVideoControl s.cam.hCamera StreamCmd.START_STREAMING) r.2
    if r.1 then { s1 with cam := { s1.cam with streaming := true } } else s1
  else s

/-- The function `Camera::stopStreaming()`. -/
def Camera.stopStreaming {W : Type} (sdk : Sdk W) (s : Sys W) : Sys W :=
  if s.cam.streaming then
    let r := sdk.LucamStreamVideoControl s.cam.hCamera StreamCmd.STOP_STREAMING s.world
    let s1 := s.call (Event.LucamStreamVideoControl s.cam.hCamera StreamCmd.STOP_STREAMING) r.2
    if r.1 then { s1 with cam := { s1.cam with streaming := false } } else s1
  else s

/-- The function `Camera::releaseImage()`. -/
def Camera.releaseImage {W : Type} (s : Sys W) : Sys W :=
  { s with cam := { s.cam with rgbImageOwnerIsProducer := true } }

/-- The function `Camera::getImage()`. The expression `&rgbImage[0]` is the
start of the vector's storage: the address of element 0 when the vector has
storage, the null pointer when it has none. -/
def Camera.getImage (c : Lumenera.Camera) : Ptr :=
  if c.rgbImageOwnerIsProducer then
    Ptr.null
  else if c.rgbImageStorage then
    Ptr.rgbImage 0
  else
    Ptr.null

/-- The function `Camera::createRGBImage(const BYTE* raw, const int length)`;
`raw` is the frame the pointer addresses. -/
def Camera.createRGBImage {W : Type} (sdk : Sdk W) (raw : List BYTE) (length : Int)
    (s : Sys W) : Except Fault (Sys W) :=
  if !s.cam.rgbImageOwnerIsProducer then
    .ok s
  else if !s.cam.rgbImageOwnerIsProducer then
    .error Fault.assertionFailure
  else
    -- length * 3 is an int; resize takes a size_t, so a negative product
    -- becomes a size above max_size()
    let n := wrapInt (length * 3)
    if n < 0 then
      .error Fault.lengthError
    else
      let buf := vectorResize s.cam.rgbImage n.toNat
      let r := sdk.LucamConvertFrameToRgb24Ex s.cam.hCamera buf raw s.cam.imageFormat
        s.cam.conversionParams s.world
      let s1 := s.call (Event.LucamConvertFrameToRgb24Ex s.cam.hCamera buf.length raw) r.2
      .ok { s1 with cam := { s1.cam with rgbImage := writeThrough buf r.1.2,
                                          rgbImageStorage :=
                                            s1.cam.rgbImageStorage || decide (0 < n.toNat),
                                          rgbImageOwnerIsProducer := false } }

/-- Replaces the object of a system state. -/
def Sys.setCam {W : Type} (s : Sys W) (c : Camera) : Sys W :=
  { s with cam := c }

/-- Lines 70 to 73 of `Camera::init`: gain, target intensity and exposure. -/
def Camera.initProperties {W : Type} (sdk : Sdk W) (s : Sys W) : Sys W :=
  let h := s.cam.hCamera
  let r1 := sdk.LucamSetProperty h Property.LUCAM_PROP_GAIN 2 ⟨false, false⟩ s.world
  let s1 := s.call (Event.LucamSetProperty h Property.LUCAM_PROP_GAIN 2 ⟨false, false⟩) r1.2
  let s2 := s1.setCam { s1.cam with targetIntensity := 90 }
  let target : FLOAT := (s2.cam.targetIntensity : Rat)
  let r3 := sdk.LucamSetProperty h Property.LUCAM_PROP_AUTO_EXP_TARGET target ⟨false, false⟩
    s2.world
  let s3 := s2.call
    (Event.LucamSetProperty h Property.LUCAM_PROP_AUTO_EXP_TARGET target ⟨false, false⟩) r3.2
  let r4 := sdk.LucamSetProperty h Property.LUCAM_PROP_EXPOSURE 5 ⟨false, false⟩ s3.world
  s3.call (Event.LucamSetProperty h Property.LUCAM_PROP_EXPOSURE 5 ⟨false, false⟩) r4.2

/-- Lines 75 to 82 of `Camera::init`: SDK streaming is started, the image
format is fetched and the display size is set. -/
def Camera.initFormat {W : Type} (sdk : Sdk W) (s : Sys W) : Sys W :=
  let h := s.cam.hCamera
  let r1 := sdk.LucamStreamVideoControl h StreamCmd.START_STREAMING s.world
  let s1 := s.call (Event.LucamStreamVideoControl h StreamCmd.START_STREAMING) r1.2
  let s2 := s1.setCam { s1.cam with
    imageFormat := { s1.cam.imageFormat with Size := sdk.sizeofImageFormat } }
  let r3 := sdk.LucamGetVideoImageFormat h s2.cam.imageFormat s2.world
  let s3 := (s2.call (Event.LucamGetVideoImageFormat h) r3.2).setCam
    { s2.cam with imageFormat := r3.1.2 }
  let s4 := s3.setCam { s3.cam with width := 640 }
  s4.setCam { s4.cam with
    height := sdk.displayHeight s4.cam.imageFormat.Height s4.cam.imageFormat.Width s4.cam.width }

/-- Lines 84 to 88 of `Camera::init`: the white-balance pass, the stop of
SDK streaming and the switch of exposure to automatic. -/
def Camera.initWhiteBalance {W : Type} (sdk : Sdk W) (s : Sys W) : Sys W :=
  let h := s.cam.hCamera
  let wid := s.cam.imageFormat.Width
  let hgt := s.cam.imageFormat.Height
  let r1 := sdk.LucamOneShotAutoWhiteBalance h 0 0 wid hgt s.world
  let s1 := s.call (Event.LucamOneShotAutoWhiteBalance h 0 0 wid hgt) r1.2
  let r2 := sdk.LucamDigitalWhiteBalance h 0 0 wid hgt s1.world
  let s2 := s1.call (Event.LucamDigitalWhiteBalance h 0 0 wid hgt) r2.2
  let r3 := sdk.LucamStreamVideoControl h StreamCmd.STOP_STREAMING s2.world
  let s3 := s2.call (Event.LucamStreamVideoControl h StreamCmd.STOP_STREAMING) r3.2
  let r4 := sdk.LucamSetProperty h Property.LUCAM_PROP_EXPOSURE 5 ⟨true, true⟩ s3.world
  s3.call (Event.LucamSetProperty h Property.LUCAM_PROP_EXPOSURE 5 ⟨true, true⟩) r4.2

/-- Lines 70 to 88 of `Camera::init`: the fixed properties, the image
format and display size, and the white-balance pass between a start and a
stop of SDK streaming, ending with the switch of exposure to automatic. -/
def Camera.initConfigure {W : Type} (sdk : Sdk W) (s : Sys W) : Sys W :=
  Camera.initWhiteBalance sdk (Camera.initFormat sdk (Camera.initProperties sdk s))

/-- Lines 90 to 102 of `Camera::init`: the conversion parameters. -/
def Camera.initConversion {W : Type} (sdk : Sdk W) (s : Sys W) : Sys W :=
  if s.cam.hCamera ≠ NULL then
    let h := s.cam.hCamera
    let cp0 : LUCAM_CONVERSION_PARAMS := { s.cam.conversionParams with
      CorrectionMatrix := sdk.LUCAM_CM_FLUORESCENT
      DemosaicMethod := sdk.LUCAM_DM_FAST
      UseColorGainsOverWb := true
      Size := sdk.sizeofConversionParams }
    let r1 := sdk.LucamGetProperty h Property.LUCAM_PROP_DIGITAL_GAIN_BLUE cp0.DigitalGainBlue
      s.world
    let s1 := s.call (Event.LucamGetProperty h Property.LUCAM_PROP_DIGITAL_GAIN_BLUE) r1.2
    let r2 := sdk.LucamGetProperty h Property.LUCAM_PROP_DIGITAL_GAIN_GREEN cp0.DigitalGainGreen
      s1.world
    let s2 := s1.call (Event.LucamGetProperty h Property.LUCAM_PROP_DIGITAL_GAIN_GREEN) r2.2
    let r3 := sdk.LucamGetProperty h Property.LUCAM_PROP_DIGITAL_GAIN_RED cp0.DigitalGainRed
      s2.world
    let s3 := s2.call (Event.LucamGetProperty h Property.LUCAM_PROP_DIGITAL_GAIN_RED) r3.2
    s3.setCam { s3.cam with conversionParams := { cp0 with
      DigitalGainBlue := r1.1.2
      DigitalGainGreen := r2.1.2
      DigitalGainRed := r3.1.2
      FlipX := false
      FlipY := false
      Hue := 0
      Saturation := 1 } }
  else s

/-- Lines 104 to 110 of `Camera::init`: the display windows. -/
def Camera.initWindows {W : Type} (processing : String) (s : Sys W) : Except Fault (Sys W) :=
  match s.cam.name with
  | .error f => .error f
  | .ok label =>
    let s1 := s.setCam { s.cam with m_unprocessedWindowName := label }
    let s2 := s1.call (Event.namedWindow s1.cam.m_unprocessedWindowName) s1.world
    if processing ≠ "" then
      match s2.cam.name with
      | .error f => .error f
      | .ok label2 =>
        let s3 := s2.setCam { s2.cam with m_processedWindowName := label2 ++ " - " ++ processing }
        .ok (s3.call (Event.namedWindow s3.cam.m_processedWindowName) s3.world)
    else .ok s2

/-- Lines 68 and 69 of `Camera::init`: the handle and the index are stored. -/
def Camera.initAssign {W : Type} (temp_hCamera : HANDLE) (index : Int) (s : Sys W) : Sys W :=
  let s1 := s.setCam { s.cam with hCamera := temp_hCamera }
  s1.setCam { s1.cam with cameraIndex := index }

/-- The function `Camera::init(int index, const std::string& processing)`. -/
def Camera.init {W : Type} (sdk : Sdk W) (index : Int) (processing : String) (s : Sys W) :
    Except Fault (Sys W) :=
  let r := sdk.LucamCameraOpen index s.world
  let temp_hCamera := r.1
  let s0 := s.call (Event.LucamCameraOpen index) r.2
  if NULL = temp_hCamera then
    .ok s0
  else
    Lumenera.Camera.initWindows processing
      (Lumenera.Camera.initConversion sdk
        (Lumenera.Camera.initConfigure sdk (Lumenera.Camera.initAssign temp_hCamera index s0)))

/-! ## Sequences of calls -/

/-- A call of one of the member functions of the hand-off protocol or of the
streaming toggle. -/
inductive Op where
  | createRGBImage (raw : List BYTE) (length : Int)
  | releaseImage
  | getImage
  | startStreaming
  | stopStreaming
  deriving DecidableEq

/-- A state of a run: the object and its world, and the `length` of the most
recent `createRGBImage` call that was not dropped. -/
structure RunState (W : Type) where
  sys : Sys W
  lastLength : Option Int

/-- One call. -/
def step {W : Type} (sdk : Sdk W) (r : RunState W) : Op → Except Fault (RunState W)
  | Op.createRGBImage raw length =>
    match Camera.createRGBImage sdk raw length r.sys with
    | .error f => .error f
    | .ok s =>
      .ok { sys := s
            lastLength := if r.sys.cam.rgbImageOwnerIsProducer then some length
                          else r.lastLength }
  | Op.releaseImage => .ok { r with sys := Camera.releaseImage r.sys }
  | Op.getImage => .ok r
  | Op.startStreaming => .ok { r with sys := Camera.startStreaming sdk r.sys }
  | Op.stopStreaming => .ok { r with sys := Camera.stopStreaming sdk r.sys }

/-- A sequence of calls, first to last; it ends at the first fault. -/
def run {W : Type} (sdk : Sdk W) : List Op → RunState W → Except Fault (RunState W)
  | [], r => .ok r
  | op :: ops, r =>
    match step sdk r op with
    | .error f => .error f
    | .ok r1 => run sdk ops r1

/-- The state before the first call: a freshly constructed object, a world
in state `w`, and no call made. -/
def fresh {W : Type} (fmt : LUCAM_IMAGE_FORMAT) (cp : LUCAM_CONVERSION_PARAMS) (w : W) :
    RunState W :=
  { sys := { cam := Camera.Camera fmt cp, world := w, trace := [] }, lastLength := none }

/-! ## A simulated device

A concrete SDK for evaluating the functions: its state counts the calls made
so far; every entry point other than the open request reports failure when
it is the very first call made and success afterwards; only indices from 1
on name a device, and opening index `i` gives the handle `i + 100`. -/

/-- A simulated SDK over a call counter. -/
def simSdk : Sdk Nat :=
  { sizeofImageFormat := 48
    sizeofConversionParams := 44
    LUCAM_CM_FLUORESCENT := 1
    LUCAM_DM_FAST := 1
    displayHeight := fun hgt wid width => if wid = 0 then 0 else (hgt : Int) * width / wid
    LucamCameraOpen := fun index w => (if 1 ≤ index then index.toNat + 100 else NULL, w + 1)
    LucamSetProperty := fun _ _ _ _ w => (decide (1 ≤ w), w + 1)
    LucamGetProperty := fun _ p v w =>
      ((decide (1 ≤ w),
        match p with
        | Property.LUCAM_PROP_DIGITAL_GAIN_BLUE => 3
        | Property.LUCAM_PROP_DIGITAL_GAIN_GREEN => 1
        | Property.LUCAM_PROP_DIGITAL_GAIN_RED => 2
        | _ => v), w + 1)
    LucamStreamVideoControl := fun _ _ w => (decide (1 ≤ w), w + 1)
    LucamGetVideoImageFormat := fun _ fmt w =>
      ((decide (1 ≤ w), { fmt with Width := 4, Height := 2, ImageSize := 8 }), w + 1)
    LucamOneShotAutoWhiteBalance := fun _ _ _ _ _ w => (decide (1 ≤ w), w + 1)
    LucamDigitalWhiteBalance := fun _ _ _ _ _ w => (decide (1 ≤ w), w + 1)
    LucamConvertFrameToRgb24Ex := fun _ dst raw _ _ w =>
      ((decide (1 ≤ w), raw.take dst.length), w + 1) }

/-- Some contents of an image format record. -/
def fmt0 : LUCAM_IMAGE_FORMAT := { Size := 0, Width := 0, Height := 0, ImageSize := 0 }

/-- Some contents of a conversion parameter record. -/
def cp0 : LUCAM_CONVERSION_PARAMS :=
  { Size := 0, DemosaicMethod := 0, CorrectionMatrix := 0, FlipX := true, FlipY := true,
    Hue := 5, Saturation := 7, UseColorGainsOverWb := false,
    DigitalGainRed := 0, DigitalGainGreen := 0, DigitalGainBlue := 0 }

/-- The simulated world after one SDK call, holding a fresh object. -/
def warmSys : Sys Nat :=
  { cam := Camera.Camera fmt0 cp0, world := 1, trace := [Event.LucamCameraOpen 0] }

/-- The simulated world before any SDK call, holding an object whose
`streaming` flag is set. -/
def coldStreamingSys : Sys Nat :=
  { cam := { Camera.Camera fmt0 cp0 with streaming := true }, world := 0, trace := [] }

/-- The simulated world before any SDK call, holding a fresh object. -/
def coldSys : Sys Nat :=
  { cam := Camera.Camera fmt0 cp0, world := 0, trace := [] }

/-! ## Auxiliary notions of the statements -/

/-- The value of a decimal digit character. -/
def digitValue (c : Char) : Nat := c.toNat - 48

/-- Reads a string of decimal digits, most significant first. -/
def readDecimal (cs : List Char) : Nat :=
  cs.foldl (fun a c => a * 10 + digitValue c) 0

/-- The invariant of the hand-off: while the consumer owns the buffer, its
size is the `int` product `length * 3` of the last accepted frame. -/
def HandOff {W : Type} (r : RunState W) : Prop :=
  r.sys.cam.rgbImageOwnerIsProducer = false →
    ∃ length : Int, r.lastLength = some length ∧ 1 ≤ length ∧ length ≤ INT_MAX ∧
      0 ≤ wrapInt (length * 3) ∧ (r.sys.cam.rgbImage.length : Int) = wrapInt (length * 3)

/-! ## Arithmetic and buffers -/

theorem wrapInt_of_int (x : Int) (hlo : -(2 ^ 31) ≤ x) (hhi : x ≤ INT_MAX) : wrapInt x = x := by
  unfold wrapInt
  unfold INT_MAX at hhi
  omega

theorem triple_ne_multiple (length q : Int) (h1 : 1 ≤ length) (hmax : length ≤ 2147483647)
    (h : length * 3 = 4294967296 * q) : False := by
  have hq1 : 1 ≤ q := by
    by_contra hcon
    have : q ≤ 0 := by linarith [Int.not_le.mp hcon]
    linarith
  have hq2 : q ≤ 1 := by
    by_contra hcon
    have : 2 ≤ q := by linarith [Int.not_le.mp hcon]
    linarith
  have hq : q = 1 := le_antisymm hq2 hq1
  subst hq
  omega

theorem wrapInt_triple_ne_zero (length : Int) (h1 : 1 ≤ length) (hmax : length ≤ INT_MAX) :
    wrapInt (length * 3) ≠ 0 := by
  unfold wrapInt
  unfold INT_MAX at hmax
  intro h
  have hdiv := Int.emod_add_ediv (length * 3 + 2 ^ 31) (2 ^ 32)
  generalize (length * 3 + 2 ^ 31) / 2 ^ 32 = q at hdiv
  generalize (length * 3 + 2 ^ 31) % 2 ^ 32 = m at hdiv h
  norm_num at hmax hdiv h
  exact triple_ne_multiple length q h1 hmax (by linarith)

theorem length_vectorResize (v : List BYTE) (n : Nat) : (vectorResize v n).length = n := by
  unfold vectorResize
  simp only [List.length_append, List.length_take, List.length_replicate]
  omega

theorem length_writeThrough (dst out : List BYTE) :
    (writeThrough dst out).length = dst.length := by
  unfold writeThrough
  simp only [List.length_append, List.length_take, List.length_drop]
  omega

/-! ## The hand-off of the converted buffer -/

/-- C1: `getImage` returns the null pointer whenever `rgbImageOwnerIsProducer`
is true; whenever it returns the address of the converted buffer, or any
non-null pointer, the flag is false, so the buffer is never handed out while
the flag says the producer owns it; with the flag false and storage in the
buffer it returns the address of the buffer's first element; on a freshly
constructed object it returns null. -/
theorem getImage_respects_ownership (c : Camera) :
    (c.rgbImageOwnerIsProducer = true → Camera.getImage c = Ptr.null) ∧
    (∀ i, Camera.getImage c = Ptr.rgbImage i → c.rgbImageOwnerIsProducer = false ∧ i = 0) ∧
    (Camera.getImage c ≠ Ptr.null → c.rgbImageOwnerIsProducer = false) ∧
    (c.rgbImageOwnerIsProducer = false → c.rgbImageStorage = true →
      Camera.getImage c = Ptr.rgbImage 0) ∧
    (∀ fmt cp, Camera.getImage (Camera.Camera fmt cp) = Ptr.null) := by
  refine ⟨?_, ?_, ?_, ?_, ?_⟩
  · intro h
    simp [Camera.getImage, h]
  · intro i h
    unfold Camera.getImage at h
    cases hf : c.rgbImageOwnerIsProducer <;> cases hs : c.rgbImageStorage <;>
      simp [hf, hs] at h
    exact ⟨rfl, h.symm⟩
  · intro h
    cases hf : c.rgbImageOwnerIsProducer
    · rfl
    · simp [Camera.getImage, hf] at h
  · intro hf hs
    simp [Camera.getImage, hf, hs]
  · intro fmt cp
    rfl

/-- C1 on a fresh object and on an object that holds a converted frame of
six bytes for the consumer. -/
theorem getImage_respects_ownership_witness :
    Camera.getImage (Camera.Camera fmt0 cp0) = Ptr.null ∧
    Camera.getImage { Camera.Camera fmt0 cp0 with
        rgbImage := [1, 2, 3, 4, 5, 6], rgbImageStorage := true,
        rgbImageOwnerIsProducer := false } = Ptr.rgbImage 0 :=
  ⟨(getImage_respects_ownership (Camera.Camera fmt0 cp0)).1 (by rfl),
   (getImage_respects_ownership { Camera.Camera fmt0 cp0 with
        rgbImage := [1, 2, 3, 4, 5, 6], rgbImageStorage := true,
        rgbImageOwnerIsProducer := false }).2.2.2.1 (by rfl) (by rfl)⟩

/-- C2: `releaseImage` yields the same state with `rgbImageOwnerIsProducer`
set to true, whatever the flag and the buffers were: every other field of
the object is unchanged, and the SDK state and the trace of calls are
unchanged (no SDK call is made). -/
theorem releaseImage_only_sets_flag {W : Type} (s : Sys W) :
    Camera.releaseImage s
      = { cam := { s.cam with rgbImageOwnerIsProducer := true }, world := s.world,
          trace := s.trace } ∧
    (Camera.releaseImage s).cam.rgbImageOwnerIsProducer = true ∧
    (Camera.releaseImage s).cam.rgbImage = s.cam.rgbImage ∧
    (Camera.releaseImage s).cam.rawImage = s.cam.rawImage ∧
    (Camera.releaseImage s).cam.streaming = s.cam.streaming ∧
    (Camera.releaseImage s).cam.hCamera = s.cam.hCamera ∧
    (Camera.releaseImage s).cam.cameraIndex = s.cam.cameraIndex ∧
    (Camera.releaseImage s).cam.imageFormat = s.cam.imageFormat ∧
    (Camera.releaseImage s).cam.conversionParams = s.cam.conversionParams ∧
    (Camera.releaseImage s).cam.targetIntensity = s.cam.targetIntensity ∧
    (Camera.releaseImage s).cam.width = s.cam.width ∧
    (Camera.releaseImage s).cam.height = s.cam.height ∧
    (Camera.releaseImage s).cam.m_unprocessedWindowName = s.cam.m_unprocessedWindowName ∧
    (Camera.releaseImage s).cam.m_processedWindowName = s.cam.m_processedWindowName ∧
    (Camera.releaseImage s).world = s.world ∧
    (Camera.releaseImage s).trace = s.trace := by
  simp [Camera.releaseImage]

/-- C3: while `rgbImageOwnerIsProducer` is false, `createRGBImage` returns
with the whole state unchanged for every frame and length: buffer, flag, SDK
state and trace are as before, so the conversion is not called. Hence a
`createRGBImage` call that directly follows a completed `createRGBImage`
call is dropped and the buffer still holds the result of the first. -/
theorem createRGBImage_drops_frame {W : Type} (sdk : Sdk W) (s : Sys W) (raw : List BYTE)
    (length : Int) :
    (s.cam.rgbImageOwnerIsProducer = false →
      Camera.createRGBImage sdk raw length s = .ok s) ∧
    (∀ (s0 : Sys W) (raw0 : List BYTE) (length0 : Int),
      Camera.createRGBImage sdk raw0 length0 s0 = .ok s →
      Camera.createRGBImage sdk raw length s = .ok s) := by
  have hdrop : s.cam.rgbImageOwnerIsProducer = false →
      Camera.createRGBImage sdk raw length s = .ok s := by
    intro h
    simp [Camera.createRGBImage, h]
  refine ⟨hdrop, ?_⟩
  intro s0 raw0 length0 h0
  apply hdrop
  unfold Camera.createRGBImage at h0
  by_cases hflag : s0.cam.rgbImageOwnerIsProducer = true
  · by_cases hn : wrapInt (length0 * 3) < 0
    · simp [hflag, hn] at h0
    · simp only [hflag, hn, Bool.not_true, Bool.false_eq_true, if_false,
        Except.ok.injEq] at h0
      rw [← h0]
  · simp only [Bool.not_eq_true] at hflag
    simp only [hflag, Bool.not_false, if_true, Except.ok.injEq] at h0
    rw [← h0]
    exact hflag

/-- The drop of C3 on the simulated device: a first frame is converted, a
second one offered right after it changes nothing. -/
theorem createRGBImage_drops_frame_witness :
    Camera.createRGBImage simSdk [1, 2, 3, 4, 5, 6] 2 warmSys
      = .ok { cam := { Camera.Camera fmt0 cp0 with
                rgbImage := [1, 2, 3, 4, 5, 6], rgbImageStorage := true,
                rgbImageOwnerIsProducer := false }
              world := 2
              trace := [Event.LucamCameraOpen 0,
                Event.LucamConvertFrameToRgb24Ex 0 6 [1, 2, 3, 4, 5, 6]] } ∧
    Camera.createRGBImage simSdk [9, 9, 9] 1
        { cam := { Camera.Camera fmt0 cp0 with
            rgbImage := [1, 2, 3, 4, 5, 6], rgbImageStorage := true,
                rgbImageOwnerIsProducer := false }
          world := 2
          trace := [Event.LucamCameraOpen 0,
            Event.LucamConvertFrameToRgb24Ex 0 6 [1, 2, 3, 4, 5, 6]] }
      = .ok { cam := { Camera.Camera fmt0 cp0 with
                rgbImage := [1, 2, 3, 4, 5, 6], rgbImageStorage := true,
                rgbImageOwnerIsProducer := false }
              world := 2
              trace := [Event.LucamCameraOpen 0,
                Event.LucamConvertFrameToRgb24Ex 0 6 [1, 2, 3, 4, 5, 6]] } :=
  have h1 : Camera.createRGBImage simSdk [1, 2, 3, 4, 5, 6] 2 warmSys
      = .ok { cam := { Camera.Camera fmt0 cp0 with
                rgbImage := [1, 2, 3, 4, 5, 6], rgbImageStorage := true,
                rgbImageOwnerIsProducer := false }
              world := 2
              trace := [Event.LucamCameraOpen 0,
                Event.LucamConvertFrameToRgb24Ex 0 6 [1, 2, 3, 4, 5, 6]] } := by rfl
  ⟨h1, (createRGBImage_drops_frame simSdk _ [9, 9, 9] 1).2 warmSys [1, 2, 3, 4, 5, 6] 2 h1⟩

/-! ## The streaming toggle -/

theorem startStreaming_of_streaming {W : Type} (sdk : Sdk W) (s : Sys W)
    (h : s.cam.streaming = true) : Camera.startStreaming sdk s = s := by
  simp [Camera.startStreaming, h]

theorem startStreaming_of_success {W : Type} (sdk : Sdk W) (s : Sys W)
    (h : s.cam.streaming = false)
    (hr : (sdk.LucamStreamVideoControl s.cam.hCamera StreamCmd.START_STREAMING s.world).1 = true) :
    Camera.startStreaming sdk s
      = { cam := { s.cam with streaming := true }
          world := (sdk.LucamStreamVideoControl s.cam.hCamera StreamCmd.START_STREAMING s.world).2
          trace := s.trace
            ++ [Event.LucamStreamVideoControl s.cam.hCamera StreamCmd.START_STREAMING] } := by
  simp [Camera.startStreaming, Sys.call, h, hr]

theorem startStreaming_of_refusal {W : Type} (sdk : Sdk W) (s : Sys W)
    (h : s.cam.streaming = false)
    (hr : (sdk.LucamStreamVideoControl s.cam.hCamera StreamCmd.START_STREAMING s.world).1
      = false) :
    Camera.startStreaming sdk s
      = { cam := s.cam
          world := (sdk.LucamStreamVideoControl s.cam.hCamera StreamCmd.START_STREAMING s.world).2
          trace := s.trace
            ++ [Event.LucamStreamVideoControl s.cam.hCamera StreamCmd.START_STREAMING] } := by
  simp [Camera.startStreaming, Sys.call, h, hr]

theorem stopStreaming_of_idle {W : Type} (sdk : Sdk W) (s : Sys W)
    (h : s.cam.streaming = false) : Camera.stopStreaming sdk s = s := by
  simp [Camera.stopStreaming, h]

theorem stopStreaming_of_success {W : Type} (sdk : Sdk W) (s : Sys W)
    (h : s.cam.streaming = true)
    (hr : (sdk.LucamStreamVideoControl s.cam.hCamera StreamCmd.STOP_STREAMING s.world).1 = true) :
    Camera.stopStreaming sdk s
      = { cam := { s.cam with streaming := false }
          world := (sdk.LucamStreamVideoControl s.cam.hCamera StreamCmd.STOP_STREAMING s.world).2
          trace := s.trace
            ++ [Event.LucamStreamVideoControl s.cam.hCamera StreamCmd.STOP_STREAMING] } := by
  simp [Camera.stopStreaming, Sys.call, h, hr]

theorem stopStreaming_of_refusal {W : Type} (sdk : Sdk W) (s : Sys W)
    (h : s.cam.streaming = true)
    (hr : (sdk.LucamStreamVideoControl s.cam.hCamera StreamCmd.STOP_STREAMING s.world).1
      = false) :
    Camera.stopStreaming sdk s
      = { cam := s.cam
          world := (sdk.LucamStreamVideoControl s.cam.hCamera StreamCmd.STOP_STREAMING s.world).2
          trace := s.trace
            ++ [Event.LucamStreamVideoControl s.cam.hCamera StreamCmd.STOP_STREAMING] } := by
  simp [Camera.stopStreaming, Sys.call, h, hr]

/-- C4, as stated, fails: on the simulated device, whose first call is
refused and whose second call succeeds, the second `startStreaming` sets the
flag the first one left false, and the second `stopStreaming` clears the flag
the first one left true. -/
theorem streaming_toggle_twice_counterexample :
    (Camera.startStreaming simSdk (Camera.startStreaming simSdk coldSys)).cam
        ≠ (Camera.startStreaming simSdk coldSys).cam ∧
    (Camera.startStreaming simSdk coldSys).cam.streaming = false ∧
    (Camera.startStreaming simSdk (Camera.startStreaming simSdk coldSys)).cam.streaming = true ∧
    (Camera.stopStreaming simSdk (Camera.stopStreaming simSdk coldStreamingSys)).cam
        ≠ (Camera.stopStreaming simSdk coldStreamingSys).cam ∧
    (Camera.stopStreaming simSdk coldStreamingSys).cam.streaming = true ∧
    (Camera.stopStreaming simSdk (Camera.stopStreaming simSdk coldStreamingSys)).cam.streaming
        = false := by
  decide

/-- C4, amended: the second of two `startStreaming` calls in a row leaves the
object as the first left it, except exactly when the flag was false, the
SDK refused the first request and granted the second; once the flag is true
after the first call, the second call changes nothing at all and makes no
SDK call. The same holds for two `stopStreaming` calls, with the flag true
at the start and false as the target. -/
theorem streaming_toggle_twice {W : Type} (sdk : Sdk W) (s : Sys W) :
    (((Camera.startStreaming sdk (Camera.startStreaming sdk s)).cam
          = (Camera.startStreaming sdk s).cam) ↔
      ¬ (s.cam.streaming = false ∧
         (sdk.LucamStreamVideoControl s.cam.hCamera StreamCmd.START_STREAMING s.world).1 = false ∧
         (sdk.LucamStreamVideoControl s.cam.hCamera StreamCmd.START_STREAMING
           (sdk.LucamStreamVideoControl s.cam.hCamera StreamCmd.START_STREAMING s.world).2).1
             = true)) ∧
    ((Camera.startStreaming sdk s).cam.streaming = true →
      Camera.startStreaming sdk (Camera.startStreaming sdk s) = Camera.startStreaming sdk s) ∧
    (((Camera.stopStreaming sdk (Camera.stopStreaming sdk s)).cam
          = (Camera.stopStreaming sdk s).cam) ↔
      ¬ (s.cam.streaming = true ∧
         (sdk.LucamStreamVideoControl s.cam.hCamera StreamCmd.STOP_STREAMING s.world).1 = false ∧
         (sdk.LucamStreamVideoControl s.cam.hCamera StreamCmd.STOP_STREAMING
           (sdk.LucamStreamVideoControl s.cam.hCamera StreamCmd.STOP_STREAMING s.world).2).1
             = true)) ∧
    ((Camera.stopStreaming sdk s).cam.streaming = false →
      Camera.stopStreaming sdk (Camera.stopStreaming sdk s) = Camera.stopStreaming sdk s) := by
  refine ⟨?_, fun h => startStreaming_of_streaming sdk _ h, ?_,
    fun h => stopStreaming_of_idle sdk _ h⟩
  · cases hs : s.cam.streaming
    · cases h1 : (sdk.LucamStreamVideoControl s.cam.hCamera StreamCmd.START_STREAMING s.world).1
      · rw [startStreaming_of_refusal sdk s hs h1]
        cases h2 : (sdk.LucamStreamVideoControl s.cam.hCamera StreamCmd.START_STREAMING
          (sdk.LucamStreamVideoControl s.cam.hCamera StreamCmd.START_STREAMING s.world).2).1
        · rw [startStreaming_of_refusal sdk
            { cam := s.cam
              world := (sdk.LucamStreamVideoControl s.cam.hCamera StreamCmd.START_STREAMING s.world).2
              trace := s.trace
                ++ [Event.LucamStreamVideoControl s.cam.hCamera StreamCmd.START_STREAMING] } hs h2]
          simp
        · rw [startStreaming_of_success sdk
            { cam := s.cam
              world := (sdk.LucamStreamVideoControl s.cam.hCamera StreamCmd.START_STREAMING s.world).2
              trace := s.trace
                ++ [Event.LucamStreamVideoControl s.cam.hCamera StreamCmd.START_STREAMING] } hs h2]
          simp only [not_true_eq_false, and_self, iff_false]
          intro h
          have hflag := congrArg Camera.streaming h
          simp [hs] at hflag
      · rw [startStreaming_of_success sdk s hs h1, startStreaming_of_streaming sdk _ rfl]
        simp
    · rw [startStreaming_of_streaming sdk s hs, startStreaming_of_streaming sdk s hs]
      simp
  · cases hs : s.cam.streaming
    · rw [stopStreaming_of_idle sdk s hs, stopStreaming_of_idle sdk s hs]
      simp
    · cases h1 : (sdk.LucamStreamVideoControl s.cam.hCamera StreamCmd.STOP_STREAMING s.world).1
      · rw [stopStreaming_of_refusal sdk s hs h1]
        cases h2 : (sdk.LucamStreamVideoControl s.cam.hCamera StreamCmd.STOP_STREAMING
          (sdk.LucamStreamVideoControl s.cam.hCamera StreamCmd.STOP_STREAMING s.world).2).1
        · rw [stopStreaming_of_refusal sdk
            { cam := s.cam
              world := (sdk.LucamStreamVideoControl s.cam.hCamera StreamCmd.STOP_STREAMING s.world).2
              trace := s.trace
                ++ [Event.LucamStreamVideoControl s.cam.hCamera StreamCmd.STOP_STREAMING] } hs h2]
          simp
        · rw [stopStreaming_of_success sdk
            { cam := s.cam
              world := (sdk.LucamStreamVideoControl s.cam.hCamera StreamCmd.STOP_STREAMING s.world).2
              trace := s.trace
                ++ [Event.LucamStreamVideoControl s.cam.hCamera StreamCmd.STOP_STREAMING] } hs h2]
          simp only [not_true_eq_false, and_self, iff_false]
          intro h
          have hflag := congrArg Camera.streaming h
          simp [hs] at hflag
      · rw [stopStreaming_of_success sdk s hs h1, stopStreaming_of_idle sdk _ rfl]
        simp

/-- The amended C4 on the simulated device after its first call: the first
`startStreaming` succeeds and the second one changes nothing. -/
theorem streaming_toggle_twice_witness :
    (Camera.startStreaming simSdk warmSys).cam.streaming = true ∧
    Camera.startStreaming simSdk (Camera.startStreaming simSdk warmSys)
      = Camera.startStreaming simSdk warmSys :=
  ⟨by decide, (streaming_toggle_twice simSdk warmSys).2.1 (by decide)⟩

/-- C5: after `startStreaming` the flag is true exactly when it was true
before or the SDK start request (made only when the flag was false)
succeeded; after `stopStreaming` it is false exactly when it was false
before or the SDK stop request (made only when the flag was true) succeeded.
When the flag already has the target value the call changes nothing and the
SDK is not called; otherwise exactly one streaming-control request is made.
No field other than `streaming` is modified. -/
theorem streaming_changes_only_on_success {W : Type} (sdk : Sdk W) (s : Sys W) :
    ((Camera.startStreaming sdk s).cam.streaming = true ↔
      (s.cam.streaming = true ∨
       (s.cam.streaming = false ∧
        (sdk.LucamStreamVideoControl s.cam.hCamera StreamCmd.START_STREAMING s.world).1
          = true))) ∧
    ((Camera.stopStreaming sdk s).cam.streaming = false ↔
      (s.cam.streaming = false ∨
       (s.cam.streaming = true ∧
        (sdk.LucamStreamVideoControl s.cam.hCamera StreamCmd.STOP_STREAMING s.world).1
          = true))) ∧
    (s.cam.streaming = true → Camera.startStreaming sdk s = s) ∧
    (s.cam.streaming = false → Camera.stopStreaming sdk s = s) ∧
    (s.cam.streaming = false → (Camera.startStreaming sdk s).trace
      = s.trace ++ [Event.LucamStreamVideoControl s.cam.hCamera StreamCmd.START_STREAMING]) ∧
    (s.cam.streaming = true → (Camera.stopStreaming sdk s).trace
      = s.trace ++ [Event.LucamStreamVideoControl s.cam.hCamera StreamCmd.STOP_STREAMING]) ∧
    (Camera.startStreaming sdk s).cam
      = { s.cam with streaming := (Camera.startStreaming sdk s).cam.streaming } ∧
    (Camera.stopStreaming sdk s).cam
      = { s.cam with streaming := (Camera.stopStreaming sdk s).cam.streaming } := by
  refine ⟨?_, ?_, startStreaming_of_streaming sdk s, stopStreaming_of_idle sdk s, ?_, ?_, ?_, ?_⟩
  · cases hs : s.cam.streaming
    · cases h1 : (sdk.LucamStreamVideoControl s.cam.hCamera StreamCmd.START_STREAMING s.world).1
      · rw [startStreaming_of_refusal sdk s hs h1]
        simp [hs]
      · rw [startStreaming_of_success sdk s hs h1]
        simp
    · rw [startStreaming_of_streaming sdk s hs]
      simp [hs]
  · cases hs : s.cam.streaming
    · rw [stopStreaming_of_idle sdk s hs]
      simp [hs]
    · cases h1 : (sdk.LucamStreamVideoControl s.cam.hCamera StreamCmd.STOP_STREAMING s.world).1
      · rw [stopStreaming_of_refusal sdk s hs h1]
        simp [hs]
      · rw [stopStreaming_of_success sdk s hs h1]
        simp
  · intro hs
    cases h1 : (sdk.LucamStreamVideoControl s.cam.hCamera StreamCmd.START_STREAMING s.world).1
    · rw [startStreaming_of_refusal sdk s hs h1]
    · rw [startStreaming_of_success sdk s hs h1]
  · intro hs
    cases h1 : (sdk.LucamStreamVideoControl s.cam.hCamera StreamCmd.STOP_STREAMING s.world).1
    · rw [stopStreaming_of_refusal sdk s hs h1]
    · rw [stopStreaming_of_success sdk s hs h1]
  · cases hs : s.cam.streaming
    · cases h1 : (sdk.LucamStreamVideoControl s.cam.hCamera StreamCmd.START_STREAMING s.world).1
      · rw [startStreaming_of_refusal sdk s hs h1]
      · rw [startStreaming_of_success sdk s hs h1]
    · rw [startStreaming_of_streaming sdk s hs]
  · cases hs : s.cam.streaming
    · rw [stopStreaming_of_idle sdk s hs]
    · cases h1 : (sdk.LucamStreamVideoControl s.cam.hCamera StreamCmd.STOP_STREAMING s.world).1
      · rw [stopStreaming_of_refusal sdk s hs h1]
      · rw [stopStreaming_of_success sdk s hs h1]

/-- C5 on the simulated device: a refused start request leaves the flag
false and is the only call made; a stop on an object that is not streaming
does nothing. -/
theorem streaming_changes_only_on_success_witness :
    (Camera.startStreaming simSdk coldSys).trace
      = [Event.LucamStreamVideoControl 0 StreamCmd.START_STREAMING] ∧
    Camera.stopStreaming simSdk coldSys = coldSys :=
  ⟨(streaming_changes_only_on_success simSdk coldSys).2.2.2.2.1 (by decide),
   (streaming_changes_only_on_success simSdk coldSys).2.2.2.1 (by decide)⟩

/-! ## Initialisation -/

/-- C6: when `LucamCameraOpen(index)` returns the null handle, `init` returns
normally (no fault, so the assertion of `name()` is not reached) with the
object unchanged; the open request is the only call it makes, so no further
SDK call is made and no window is created. On a freshly constructed object
`hCamera` stays `NULL` and `cameraIndex` stays `-1`. -/
theorem init_open_failure_is_silent {W : Type} (sdk : Sdk W) (s : Sys W) (index : Int)
    (processing : String) (hopen : (sdk.LucamCameraOpen index s.world).1 = NULL) :
    ∃ s1, Camera.init sdk index processing s = .ok s1 ∧
      s1.cam = s.cam ∧
      s1.trace = s.trace ++ [Event.LucamCameraOpen index] ∧
      s1.world = (sdk.LucamCameraOpen index s.world).2 ∧
      (∀ fmt cp, s.cam = Camera.Camera fmt cp →
        s1.cam.hCamera = NULL ∧ s1.cam.cameraIndex = -1) := by
  refine ⟨s.call (Event.LucamCameraOpen index) (sdk.LucamCameraOpen index s.world).2,
    ?_, rfl, rfl, rfl, ?_⟩
  · simp [Camera.init, hopen]
  · intro fmt cp h
    simp [Sys.call, h, Camera.Camera]

/-- C6 on the simulated device, which has no camera of index 0. -/
theorem init_open_failure_is_silent_witness :
    ∃ s1, Camera.init simSdk 0 "edges" coldSys = .ok s1 ∧
      s1.cam = coldSys.cam ∧
      s1.trace = coldSys.trace ++ [Event.LucamCameraOpen 0] ∧
      s1.world = (simSdk.LucamCameraOpen 0 coldSys.world).2 ∧
      (∀ fmt cp, coldSys.cam = Camera.Camera fmt cp →
        s1.cam.hCamera = NULL ∧ s1.cam.cameraIndex = -1) :=
  init_open_failure_is_silent simSdk coldSys 0 "edges" (by decide)

/-! ## The display label -/

theorem digitValue_digitChar (k : Nat) (h : k < 10) : digitValue (Nat.digitChar k) = k := by
  interval_cases k <;> rfl

theorem foldl_toDigitsCore (fuel : Nat) :
    ∀ (n : Nat) (ds : List Char), n < fuel →
      (Nat.toDigitsCore 10 fuel n ds).foldl (fun a c => a * 10 + digitValue c) 0
        = ds.foldl (fun a c => a * 10 + digitValue c) n := by
  induction fuel with
  | zero => intro n ds h; omega
  | succ fuel ih =>
    intro n ds h
    unfold Nat.toDigitsCore
    by_cases h0 : n / 10 = 0
    · simp only [h0, if_true, List.foldl_cons, zero_mul, zero_add]
      rw [digitValue_digitChar _ (Nat.mod_lt _ (by decide))]
      congr 1
      omega
    · simp only [h0, if_false]
      rw [ih (n / 10) _ (by omega)]
      simp only [List.foldl_cons]
      rw [digitValue_digitChar _ (Nat.mod_lt _ (by decide))]
      congr 1
      omega

theorem readDecimal_repr (n : Nat) : readDecimal (Nat.repr n).data = n := by
  unfold readDecimal Nat.repr Nat.toDigits
  simp only [List.asString]
  rw [foldl_toDigitsCore (n + 1) n [] (by omega)]
  rfl

theorem repr_injective (a b : Nat) (h : Nat.repr a = Nat.repr b) : a = b := by
  have := congrArg (fun s => readDecimal s.data) h
  simpa [readDecimal_repr] using this

theorem sprintfCamera_of_pos (i : Int) (h : 1 ≤ i) :
    sprintfCamera i = "Camera " ++ Nat.repr i.toNat := by
  unfold sprintfCamera
  cases i with
  | ofNat n => rfl
  | negSucc n =>
    have hneg := Int.negSucc_lt_zero n
    omega

theorem sprintfCamera_length (i : Int) (h : 1 ≤ i) (hmax : i ≤ INT_MAX) :
    (sprintfCamera i).length + 1 ≤ 128 := by
  rw [sprintfCamera_of_pos i h, String.length_append]
  have h7 : "Camera ".length = 7 := by rfl
  have hlen : (Nat.repr i.toNat).length ≤ 10 :=
    Nat.repr_length i.toNat 10 (by decide) (by unfold INT_MAX at hmax; omega)
  omega

theorem name_congr (c1 c2 : Camera) (h : c1.cameraIndex = c2.cameraIndex) :
    Camera.name c1 = Camera.name c2 := by
  unfold Camera.name
  rw [h]

theorem name_of_index (c : Camera) (h1 : 1 ≤ c.cameraIndex) (hmax : c.cameraIndex ≤ INT_MAX) :
    Camera.name c = .ok ("Camera " ++ Nat.repr c.cameraIndex.toNat) := by
  unfold Camera.name
  rw [if_pos (by omega), if_pos (sprintfCamera_length _ h1 hmax), sprintfCamera_of_pos _ h1]

theorem name_of_low_index (c : Camera) (h : c.cameraIndex < 1) :
    Camera.name c = .error Fault.assertionFailure := by
  unfold Camera.name
  rw [if_neg (by omega)]

/-- C7: for every `cameraIndex` from 1 up to the largest `int`, the text and
its terminating zero fit the 128-byte buffer and `name()` returns exactly
`"Camera "` followed by the decimal representation of the index (reading
that representation as a base-10 numeral gives the index back); two such
indices with the same label are equal; for every `cameraIndex` below 1, among
them the constructor's `-1` and the value `0`, the assertion fails and the
call does not return a label. -/
theorem name_is_label_of_index :
    (∀ c : Camera, 1 ≤ c.cameraIndex → c.cameraIndex ≤ INT_MAX →
      Camera.name c = .ok ("Camera " ++ Nat.repr c.cameraIndex.toNat) ∧
      readDecimal (Nat.repr c.cameraIndex.toNat).data = c.cameraIndex.toNat) ∧
    (∀ c1 c2 : Camera, 1 ≤ c1.cameraIndex → c1.cameraIndex ≤ INT_MAX →
      1 ≤ c2.cameraIndex → c2.cameraIndex ≤ INT_MAX →
      Camera.name c1 = Camera.name c2 → c1.cameraIndex = c2.cameraIndex) ∧
    (∀ c : Camera, c.cameraIndex < 1 → Camera.name c = .error Fault.assertionFailure) ∧
    (∀ fmt cp, Camera.name (Camera.Camera fmt cp) = .error Fault.assertionFailure) ∧
    (∀ c : Camera, c.cameraIndex = 0 → Camera.name c = .error Fault.assertionFailure) := by
  have hok := name_of_index
  have hlow := name_of_low_index
  refine ⟨fun c h1 hmax => ⟨hok c h1 hmax, readDecimal_repr _⟩, ?_, hlow, ?_, ?_⟩
  · intro c1 c2 h1 hmax1 h2 hmax2 heq
    rw [hok c1 h1 hmax1, hok c2 h2 hmax2] at heq
    simp only [Except.ok.injEq] at heq
    have hdata := congrArg String.data heq
    simp only [String.data_append, List.append_cancel_left_eq] at hdata
    have hrepr : Nat.repr c1.cameraIndex.toNat = Nat.repr c2.cameraIndex.toNat :=
      String.ext hdata
    have hnat := repr_injective _ _ hrepr
    omega
  · intro fmt cp
    exact hlow (Camera.Camera fmt cp) (by simp [Camera.Camera])
  · intro c h0
    exact hlow c (by omega)

/-- C7 on an object with index 12, on one with index 7, and on a fresh
object. -/
theorem name_is_label_of_index_witness :
    Camera.name { Camera.Camera fmt0 cp0 with cameraIndex := 12 } = .ok "Camera 12" ∧
    ((12 : Int) = 7 ∨
      Camera.name { Camera.Camera fmt0 cp0 with cameraIndex := 12 }
        ≠ Camera.name { Camera.Camera fmt0 cp0 with cameraIndex := 7 }) ∧
    Camera.name (Camera.Camera fmt0 cp0) = .error Fault.assertionFailure :=
  ⟨(name_is_label_of_index.1 { Camera.Camera fmt0 cp0 with cameraIndex := 12 }
      (by decide) (by decide)).1,
   Or.inr (fun h => absurd
     (name_is_label_of_index.2.1 { Camera.Camera fmt0 cp0 with cameraIndex := 12 }
       { Camera.Camera fmt0 cp0 with cameraIndex := 7 }
       (by decide) (by decide) (by decide) (by decide) h) (by decide)),
   name_is_label_of_index.2.2.2.1 fmt0 cp0⟩

/-! ## Conversion -/

theorem createRGBImage_of_producer {W : Type} (sdk : Sdk W) (s : Sys W) (raw : List BYTE)
    (length : Int) (hflag : s.cam.rgbImageOwnerIsProducer = true)
    (hn : 0 ≤ wrapInt (length * 3)) :
    Camera.createRGBImage sdk raw length s
      = .ok { cam := { s.cam with
                rgbImage := writeThrough
                  (vectorResize s.cam.rgbImage (wrapInt (length * 3)).toNat)
                  (sdk.LucamConvertFrameToRgb24Ex s.cam.hCamera
                    (vectorResize s.cam.rgbImage (wrapInt (length * 3)).toNat) raw
                    s.cam.imageFormat s.cam.conversionParams s.world).1.2
                rgbImageStorage :=
                  s.cam.rgbImageStorage || decide (0 < (wrapInt (length * 3)).toNat)
                rgbImageOwnerIsProducer := false }
              world := (sdk.LucamConvertFrameToRgb24Ex s.cam.hCamera
                    (vectorResize s.cam.rgbImage (wrapInt (length * 3)).toNat) raw
                    s.cam.imageFormat s.cam.conversionParams s.world).2
              trace := s.trace ++ [Event.LucamConvertFrameToRgb24Ex s.cam.hCamera
                (wrapInt (length * 3)).toNat raw] } := by
  unfold Camera.createRGBImage
  simp only [hflag, Bool.not_true, Bool.false_eq_true, if_false, not_lt.mpr hn, Sys.call,
    length_vectorResize]

theorem createRGBImage_of_negative {W : Type} (sdk : Sdk W) (s : Sys W) (raw : List BYTE)
    (length : Int) (hflag : s.cam.rgbImageOwnerIsProducer = true)
    (hn : wrapInt (length * 3) < 0) :
    Camera.createRGBImage sdk raw length s = .error Fault.lengthError := by
  unfold Camera.createRGBImage
  simp only [hflag, Bool.not_true, Bool.false_eq_true, if_false, hn, if_true]

theorem createRGBImage_of_consumer {W : Type} (sdk : Sdk W) (s : Sys W) (raw : List BYTE)
    (length : Int) (hflag : s.cam.rgbImageOwnerIsProducer = false) :
    Camera.createRGBImage sdk raw length s = .ok s := by
  unfold Camera.createRGBImage
  simp only [hflag, Bool.not_false, if_true]

theorem wrapInt_triple (length : Int) (h1 : 1 ≤ length) (h3 : 3 * length ≤ INT_MAX) :
    wrapInt (length * 3) = 3 * length := by
  rw [wrapInt_of_int (length * 3) (by omega) (by omega)]
  omega

/-- C8: when `rgbImageOwnerIsProducer` is true and `length` is at least 1
with `3 * length` representable as `int`, `createRGBImage` returns with
`rgbImage` of exactly `3 * length` bytes, having called the SDK conversion
once, on the resized buffer, and with the flag false, so that a `getImage`
right after it returns the address of the first element of the buffer, which
exists. Whenever a returning
`createRGBImage` call leaves `rgbImage` different from what it was, the flag
was true before the call. -/
theorem createRGBImage_hands_over {W : Type} (sdk : Sdk W) (s : Sys W) (raw : List BYTE)
    (length : Int) (hflag : s.cam.rgbImageOwnerIsProducer = true) (h1 : 1 ≤ length)
    (h3 : 3 * length ≤ INT_MAX) :
    (∃ s1, Camera.createRGBImage sdk raw length s = .ok s1 ∧
      (s1.cam.rgbImage.length : Int) = 3 * length ∧
      s1.cam.rgbImage = writeThrough (vectorResize s.cam.rgbImage (3 * length).toNat)
        (sdk.LucamConvertFrameToRgb24Ex s.cam.hCamera
          (vectorResize s.cam.rgbImage (3 * length).toNat) raw
          s.cam.imageFormat s.cam.conversionParams s.world).1.2 ∧
      s1.trace = s.trace
        ++ [Event.LucamConvertFrameToRgb24Ex s.cam.hCamera (3 * length).toNat raw] ∧
      s1.cam.rgbImageOwnerIsProducer = false ∧
      Camera.getImage s1.cam = Ptr.rgbImage 0 ∧
      Ptr.valid s1.cam (Camera.getImage s1.cam) = true) ∧
    (∀ (t t1 : Sys W) (raw1 : List BYTE) (length1 : Int),
      Camera.createRGBImage sdk raw1 length1 t = .ok t1 →
      t1.cam.rgbImage ≠ t.cam.rgbImage → t.cam.rgbImageOwnerIsProducer = true) := by
  constructor
  · have hw := wrapInt_triple length h1 h3
    have hret := createRGBImage_of_producer sdk s raw length hflag (by omega)
    rw [hw] at hret
    have hpos : 0 < (3 * length).toNat := by omega
    have hstorage : (s.cam.rgbImageStorage || decide (0 < (3 * length).toNat)) = true := by
      simp only [Bool.or_eq_true, decide_eq_true_eq]
      exact Or.inr hpos
    refine ⟨_, hret, ?_, rfl, rfl, rfl, ?_, ?_⟩
    · simp only [length_writeThrough, length_vectorResize]
      omega
    · simp only [Camera.getImage, hstorage, Bool.false_eq_true, if_false, if_true]
    · simp only [Camera.getImage, hstorage, Ptr.valid, length_writeThrough,
        length_vectorResize, Bool.false_eq_true, if_false, if_true, decide_eq_true_eq]
      exact hpos
  · intro t t1 raw1 length1 hret hne
    by_contra hcon
    simp only [Bool.not_eq_true] at hcon
    rw [createRGBImage_of_consumer sdk t raw1 length1 hcon] at hret
    simp only [Except.ok.injEq] at hret
    exact hne (by rw [hret])

/-- C8 on the simulated device: a frame of two pixels is converted into a
buffer of six bytes and handed over. -/
theorem createRGBImage_hands_over_witness :
    ∃ s1, Camera.createRGBImage simSdk [1, 2, 3, 4, 5, 6, 7] 2 warmSys = .ok s1 ∧
      (s1.cam.rgbImage.length : Int) = 3 * 2 ∧
      s1.cam.rgbImage = writeThrough (vectorResize warmSys.cam.rgbImage ((3 : Int) * 2).toNat)
        (simSdk.LucamConvertFrameToRgb24Ex warmSys.cam.hCamera
          (vectorResize warmSys.cam.rgbImage ((3 : Int) * 2).toNat) [1, 2, 3, 4, 5, 6, 7]
          warmSys.cam.imageFormat warmSys.cam.conversionParams warmSys.world).1.2 ∧
      s1.trace = warmSys.trace
        ++ [Event.LucamConvertFrameToRgb24Ex warmSys.cam.hCamera ((3 : Int) * 2).toNat
              [1, 2, 3, 4, 5, 6, 7]] ∧
      s1.cam.rgbImageOwnerIsProducer = false ∧
      Camera.getImage s1.cam = Ptr.rgbImage 0 ∧
      Ptr.valid s1.cam (Camera.getImage s1.cam) = true :=
  (createRGBImage_hands_over simSdk warmSys [1, 2, 3, 4, 5, 6, 7] 2 (by decide) (by decide)
    (by decide)).1

/-! ## Initialisation: the successful path -/

theorem initConfigure_spec {W : Type} (sdk : Sdk W) (s : Sys W)
    (w1 w2 w3 w4 w5 w6 w7 w8 w9 : W) (fmt : LUCAM_IMAGE_FORMAT)
    (e1 : (sdk.LucamSetProperty s.cam.hCamera Property.LUCAM_PROP_GAIN 2 ⟨false, false⟩
      s.world).2 = w1)
    (e2 : (sdk.LucamSetProperty s.cam.hCamera Property.LUCAM_PROP_AUTO_EXP_TARGET 90
      ⟨false, false⟩ w1).2 = w2)
    (e3 : (sdk.LucamSetProperty s.cam.hCamera Property.LUCAM_PROP_EXPOSURE 5 ⟨false, false⟩
      w2).2 = w3)
    (e4 : (sdk.LucamStreamVideoControl s.cam.hCamera StreamCmd.START_STREAMING w3).2 = w4)
    (e5 : (sdk.LucamGetVideoImageFormat s.cam.hCamera
      { s.cam.imageFormat with Size := sdk.sizeofImageFormat } w4).1.2 = fmt)
    (e5w : (sdk.LucamGetVideoImageFormat s.cam.hCamera
      { s.cam.imageFormat with Size := sdk.sizeofImageFormat } w4).2 = w5)
    (e6 : (sdk.LucamOneShotAutoWhiteBalance s.cam.hCamera 0 0 fmt.Width fmt.Height w5).2 = w6)
    (e7 : (sdk.LucamDigitalWhiteBalance s.cam.hCamera 0 0 fmt.Width fmt.Height w6).2 = w7)
    (e8 : (sdk.LucamStreamVideoControl s.cam.hCamera StreamCmd.STOP_STREAMING w7).2 = w8)
    (e9 : (sdk.LucamSetProperty s.cam.hCamera Property.LUCAM_PROP_EXPOSURE 5 ⟨true, true⟩
      w8).2 = w9) :
    Camera.initConfigure sdk s
      = { cam := { s.cam with
            targetIntensity := 90
            imageFormat := fmt
            width := 640
            height := sdk.displayHeight fmt.Height fmt.Width 640 }
          world := w9
          trace := s.trace ++
            [Event.LucamSetProperty s.cam.hCamera Property.LUCAM_PROP_GAIN 2 ⟨false, false⟩,
             Event.LucamSetProperty s.cam.hCamera Property.LUCAM_PROP_AUTO_EXP_TARGET 90
               ⟨false, false⟩,
             Event.LucamSetProperty s.cam.hCamera Property.LUCAM_PROP_EXPOSURE 5 ⟨false, false⟩,
             Event.LucamStreamVideoControl s.cam.hCamera StreamCmd.START_STREAMING,
             Event.LucamGetVideoImageFormat s.cam.hCamera,
             Event.LucamOneShotAutoWhiteBalance s.cam.hCamera 0 0 fmt.Width fmt.Height,
             Event.LucamDigitalWhiteBalance s.cam.hCamera 0 0 fmt.Width fmt.Height,
             Event.LucamStreamVideoControl s.cam.hCamera StreamCmd.STOP_STREAMING,
             Event.LucamSetProperty s.cam.hCamera Property.LUCAM_PROP_EXPOSURE 5
               ⟨true, true⟩] } := by
  subst e1 e2 e3 e4 e5 e5w e6 e7 e8 e9
  simp [Camera.initConfigure, Camera.initWhiteBalance, Camera.initFormat, Camera.initProperties,
    Sys.call, Sys.setCam]

theorem initConversion_spec {W : Type} (sdk : Sdk W) (s : Sys W) (hh : s.cam.hCamera ≠ NULL)
    (w1 w2 w3 : W) (gainBlue gainGreen gainRed : FLOAT)
    (eB : (sdk.LucamGetProperty s.cam.hCamera Property.LUCAM_PROP_DIGITAL_GAIN_BLUE
      s.cam.conversionParams.DigitalGainBlue s.world).1.2 = gainBlue)
    (eBw : (sdk.LucamGetProperty s.cam.hCamera Property.LUCAM_PROP_DIGITAL_GAIN_BLUE
      s.cam.conversionParams.DigitalGainBlue s.world).2 = w1)
    (eG : (sdk.LucamGetProperty s.cam.hCamera Property.LUCAM_PROP_DIGITAL_GAIN_GREEN
      s.cam.conversionParams.DigitalGainGreen w1).1.2 = gainGreen)
    (eGw : (sdk.LucamGetProperty s.cam.hCamera Property.LUCAM_PROP_DIGITAL_GAIN_GREEN
      s.cam.conversionParams.DigitalGainGreen w1).2 = w2)
    (eR : (sdk.LucamGetProperty s.cam.hCamera Property.LUCAM_PROP_DIGITAL_GAIN_RED
      s.cam.conversionParams.DigitalGainRed w2).1.2 = gainRed)
    (eRw : (sdk.LucamGetProperty s.cam.hCamera Property.LUCAM_PROP_DIGITAL_GAIN_RED
      s.cam.conversionParams.DigitalGainRed w2).2 = w3) :
    Camera.initConversion sdk s
      = { cam := { s.cam with conversionParams :=
            { Size := sdk.sizeofConversionParams
              DemosaicMethod := sdk.LUCAM_DM_FAST
              CorrectionMatrix := sdk.LUCAM_CM_FLUORESCENT
              FlipX := false
              FlipY := false
              Hue := 0
              Saturation := 1
              UseColorGainsOverWb := true
              DigitalGainRed := gainRed
              DigitalGainGreen := gainGreen
              DigitalGainBlue := gainBlue } }
          world := w3
          trace := s.trace ++
            [Event.LucamGetProperty s.cam.hCamera Property.LUCAM_PROP_DIGITAL_GAIN_BLUE,
             Event.LucamGetProperty s.cam.hCamera Property.LUCAM_PROP_DIGITAL_GAIN_GREEN,
             Event.LucamGetProperty s.cam.hCamera Property.LUCAM_PROP_DIGITAL_GAIN_RED] } := by
  subst eB eBw eG eGw eR eRw
  unfold Camera.initConversion
  rw [if_pos hh]
  simp [Sys.call, Sys.setCam]

theorem initWindows_of_label {W : Type} (processing : String) (s : Sys W) (label : String)
    (hname : s.cam.name = .ok label) :
    Camera.initWindows processing s
      = .ok { cam := { s.cam with
                m_unprocessedWindowName := label
                m_processedWindowName :=
                  if processing ≠ "" then label ++ " - " ++ processing
                  else s.cam.m_processedWindowName }
              world := s.world
              trace := s.trace ++ [Event.namedWindow label] ++
                if processing ≠ "" then [Event.namedWindow (label ++ " - " ++ processing)]
                else [] } := by
  have hname2 : Camera.name { s.cam with m_unprocessedWindowName := label } = .ok label :=
    (name_congr _ s.cam rfl).trans hname
  unfold Camera.initWindows
  by_cases hp : processing = ""
  · simp [hname, hp, Sys.call, Sys.setCam]
  · simp [hname, hname2, hp, Sys.call, Sys.setCam]

/-- C9: let `index` be from 1 up to the largest `int` and let
`LucamCameraOpen` return a non-null handle `h`. Name the device states and
answers along the calls `init` makes: `w0` after the open request, `w1` to
`w3` after the three property writes (gain 2, target 90, exposure 5), `w4`
after the streaming start, `fmt` and `w5` from the image format request, `w6`
and `w7` after the one-shot and the digital white balance over the whole
`fmt` frame, `w8` after the streaming stop, `w9` after the switch of exposure
to automatic, and the gains and `w10` to `w12` from the three gain requests
(blue, green, red) made from `w9` on. Then `init` returns with
`hCamera = h`, `cameraIndex = index`, `targetIntensity = 90`, display width
640, image format `fmt`, conversion parameters fluorescent, fast,
`UseColorGainsOverWb` true, no flips, hue 0, saturation 1 and these three
gains; the device is left in state `w12`; the calls made are exactly the
listed ones in this order, so SDK streaming is started before and stopped
after the white-balance pass and the gains are read after the switch to
automatic exposure, followed by the creation of the windows; the `streaming`
and ownership flags are as before the call; and the unprocessed window name
is what `name()` returns. -/
theorem init_configures_camera {W : Type} (sdk : Sdk W) (s : Sys W) (index : Int)
    (processing : String) (h : HANDLE) (w0 w1 w2 w3 w4 w5 w6 w7 w8 w9 w10 w11 w12 : W)
    (fmt : LUCAM_IMAGE_FORMAT) (gainBlue gainGreen gainRed : FLOAT)
    (h1 : 1 ≤ index) (hmax : index ≤ INT_MAX)
    (hopen : sdk.LucamCameraOpen index s.world = (h, w0)) (hh : h ≠ NULL)
    (e1 : (sdk.LucamSetProperty h Property.LUCAM_PROP_GAIN 2 ⟨false, false⟩ w0).2 = w1)
    (e2 : (sdk.LucamSetProperty h Property.LUCAM_PROP_AUTO_EXP_TARGET 90 ⟨false, false⟩ w1).2
      = w2)
    (e3 : (sdk.LucamSetProperty h Property.LUCAM_PROP_EXPOSURE 5 ⟨false, false⟩ w2).2 = w3)
    (e4 : (sdk.LucamStreamVideoControl h StreamCmd.START_STREAMING w3).2 = w4)
    (e5 : (sdk.LucamGetVideoImageFormat h
      { s.cam.imageFormat with Size := sdk.sizeofImageFormat } w4).1.2 = fmt)
    (e5w : (sdk.LucamGetVideoImageFormat h
      { s.cam.imageFormat with Size := sdk.sizeofImageFormat } w4).2 = w5)
    (e6 : (sdk.LucamOneShotAutoWhiteBalance h 0 0 fmt.Width fmt.Height w5).2 = w6)
    (e7 : (sdk.LucamDigitalWhiteBalance h 0 0 fmt.Width fmt.Height w6).2 = w7)
    (e8 : (sdk.LucamStreamVideoControl h StreamCmd.STOP_STREAMING w7).2 = w8)
    (e9 : (sdk.LucamSetProperty h Property.LUCAM_PROP_EXPOSURE 5 ⟨true, true⟩ w8).2 = w9)
    (eB : (sdk.LucamGetProperty h Property.LUCAM_PROP_DIGITAL_GAIN_BLUE
      s.cam.conversionParams.DigitalGainBlue w9).1.2 = gainBlue)
    (eBw : (sdk.LucamGetProperty h Property.LUCAM_PROP_DIGITAL_GAIN_BLUE
      s.cam.conversionParams.DigitalGainBlue w9).2 = w10)
    (eG : (sdk.LucamGetProperty h Property.LUCAM_PROP_DIGITAL_GAIN_GREEN
      s.cam.conversionParams.DigitalGainGreen w10).1.2 = gainGreen)
    (eGw : (sdk.LucamGetProperty h Property.LUCAM_PROP_DIGITAL_GAIN_GREEN
      s.cam.conversionParams.DigitalGainGreen w10).2 = w11)
    (eR : (sdk.LucamGetProperty h Property.LUCAM_PROP_DIGITAL_GAIN_RED
      s.cam.conversionParams.DigitalGainRed w11).1.2 = gainRed)
    (eRw : (sdk.LucamGetProperty h Property.LUCAM_PROP_DIGITAL_GAIN_RED
      s.cam.conversionParams.DigitalGainRed w11).2 = w12) :
    ∃ s1, Camera.init sdk index processing s = .ok s1 ∧
      s1.cam.hCamera = h ∧
      s1.cam.cameraIndex = index ∧
      s1.cam.targetIntensity = 90 ∧
      s1.cam.width = 640 ∧
      s1.cam.imageFormat = fmt ∧
      s1.cam.conversionParams.CorrectionMatrix = sdk.LUCAM_CM_FLUORESCENT ∧
      s1.cam.conversionParams.DemosaicMethod = sdk.LUCAM_DM_FAST ∧
      s1.cam.conversionParams.UseColorGainsOverWb = true ∧
      s1.cam.conversionParams.FlipX = false ∧
      s1.cam.conversionParams.FlipY = false ∧
      s1.cam.conversionParams.Hue = 0 ∧
      s1.cam.conversionParams.Saturation = 1 ∧
      s1.cam.conversionParams.DigitalGainBlue = gainBlue ∧
      s1.cam.conversionParams.DigitalGainGreen = gainGreen ∧
      s1.cam.conversionParams.DigitalGainRed = gainRed ∧
      s1.world = w12 ∧
      s1.trace = s.trace ++
        [Event.LucamCameraOpen index,
         Event.LucamSetProperty h Property.LUCAM_PROP_GAIN 2 ⟨false, false⟩,
         Event.LucamSetProperty h Property.LUCAM_PROP_AUTO_EXP_TARGET 90 ⟨false, false⟩,
         Event.LucamSetProperty h Property.LUCAM_PROP_EXPOSURE 5 ⟨false, false⟩,
         Event.LucamStreamVideoControl h StreamCmd.START_STREAMING,
         Event.LucamGetVideoImageFormat h,
         Event.LucamOneShotAutoWhiteBalance h 0 0 fmt.Width fmt.Height,
         Event.LucamDigitalWhiteBalance h 0 0 fmt.Width fmt.Height,
         Event.LucamStreamVideoControl h StreamCmd.STOP_STREAMING,
         Event.LucamSetProperty h Property.LUCAM_PROP_EXPOSURE 5 ⟨true, true⟩,
         Event.LucamGetProperty h Property.LUCAM_PROP_DIGITAL_GAIN_BLUE,
         Event.LucamGetProperty h Property.LUCAM_PROP_DIGITAL_GAIN_GREEN,
         Event.LucamGetProperty h Property.LUCAM_PROP_DIGITAL_GAIN_RED,
         Event.namedWindow ("Camera " ++ Nat.repr index.toNat)] ++
        (if processing ≠ "" then
          [Event.namedWindow ("Camera " ++ Nat.repr index.toNat ++ " - " ++ processing)]
         else []) ∧
      s1.cam.streaming = s.cam.streaming ∧
      s1.cam.rgbImageOwnerIsProducer = s.cam.rgbImageOwnerIsProducer ∧
      Camera.name s1.cam = .ok s1.cam.m_unprocessedWindowName ∧
      s1.cam.m_unprocessedWindowName = "Camera " ++ Nat.repr index.toNat ∧
      (∀ fmt0 cp0, s.cam = Camera.Camera fmt0 cp0 →
        s1.cam.streaming = false ∧ s1.cam.rgbImageOwnerIsProducer = true) := by
  have hA := initConfigure_spec sdk
    (Camera.initAssign h index (s.call (Event.LucamCameraOpen index) w0))
    w1 w2 w3 w4 w5 w6 w7 w8 w9 fmt e1 e2 e3 e4 e5 e5w e6 e7 e8 e9
  have hC := initConversion_spec sdk
    { cam := { (Camera.initAssign h index (s.call (Event.LucamCameraOpen index) w0)).cam with
        targetIntensity := 90
        imageFormat := fmt
        width := 640
        height := sdk.displayHeight fmt.Height fmt.Width 640 }
      world := w9
      trace := (Camera.initAssign h index (s.call (Event.LucamCameraOpen index) w0)).trace ++
        [Event.LucamSetProperty h Property.LUCAM_PROP_GAIN 2 ⟨false, false⟩,
         Event.LucamSetProperty h Property.LUCAM_PROP_AUTO_EXP_TARGET 90 ⟨false, false⟩,
         Event.LucamSetProperty h Property.LUCAM_PROP_EXPOSURE 5 ⟨false, false⟩,
         Event.LucamStreamVideoControl h StreamCmd.START_STREAMING,
         Event.LucamGetVideoImageFormat h,
         Event.LucamOneShotAutoWhiteBalance h 0 0 fmt.Width fmt.Height,
         Event.LucamDigitalWhiteBalance h 0 0 fmt.Width fmt.Height,
         Event.LucamStreamVideoControl h StreamCmd.STOP_STREAMING,
         Event.LucamSetProperty h Property.LUCAM_PROP_EXPOSURE 5 ⟨true, true⟩] }
    hh w10 w11 w12 gainBlue gainGreen gainRed eB eBw eG eGw eR eRw
  have hret : Camera.init sdk index processing s
      = Camera.initWindows processing (Camera.initConversion sdk (Camera.initConfigure sdk
          (Camera.initAssign h index (s.call (Event.LucamCameraOpen index) w0)))) := by
    unfold Camera.init
    simp only [hopen]
    rw [if_neg (fun hnull => hh hnull.symm)]
  have hAC := (congrArg (Camera.initConversion sdk) hA).trans hC
  have hname := name_of_index
    { (Camera.initAssign h index (s.call (Event.LucamCameraOpen index) w0)).cam with
        conversionParams :=
          { Size := sdk.sizeofConversionParams
            DemosaicMethod := sdk.LUCAM_DM_FAST
            CorrectionMatrix := sdk.LUCAM_CM_FLUORESCENT
            FlipX := false
            FlipY := false
            Hue := 0
            Saturation := 1
            UseColorGainsOverWb := true
            DigitalGainRed := gainRed
            DigitalGainGreen := gainGreen
            DigitalGainBlue := gainBlue }
        targetIntensity := 90
        imageFormat := fmt
        width := 640
        height := sdk.displayHeight fmt.Height fmt.Width 640 } h1 hmax
  have hfinal := hret.trans ((congrArg (Camera.initWindows processing) hAC).trans
    (initWindows_of_label processing _ _ hname))
  refine ⟨_, hfinal, rfl, rfl, rfl, rfl, rfl, rfl, rfl, rfl, rfl, rfl, rfl, rfl, rfl, rfl, rfl, rfl,
    ?_, rfl, rfl, ?_, rfl, ?_⟩
  · simp [Camera.initAssign, Sys.call, Sys.setCam]
  · simp only
    rw [← hname]
    exact name_congr _ _ rfl
  · intro fmt0 cp0 hfresh
    simp only [Camera.initAssign, Sys.call, Sys.setCam, hfresh]
    exact ⟨rfl, rfl⟩

/-- C9 on the simulated device: camera 3 is opened with handle 103 and
configured with thirteen SDK calls in the order of `init`; its gains are the
ones the device reports. -/
theorem init_configures_camera_witness :
    ∃ s1, Camera.init simSdk 3 "edges" coldSys = .ok s1 ∧
      s1.cam.hCamera = 103 ∧
      s1.cam.cameraIndex = 3 ∧
      s1.cam.targetIntensity = 90 ∧
      s1.cam.width = 640 ∧
      s1.cam.conversionParams.Hue = 0 ∧
      s1.cam.conversionParams.Saturation = 1 ∧
      s1.cam.conversionParams.DigitalGainBlue = 3 ∧
      s1.cam.conversionParams.DigitalGainGreen = 1 ∧
      s1.cam.conversionParams.DigitalGainRed = 2 ∧
      s1.world = 13 ∧
      s1.trace = coldSys.trace ++
        [Event.LucamCameraOpen 3,
         Event.LucamSetProperty 103 Property.LUCAM_PROP_GAIN 2 ⟨false, false⟩,
         Event.LucamSetProperty 103 Property.LUCAM_PROP_AUTO_EXP_TARGET 90 ⟨false, false⟩,
         Event.LucamSetProperty 103 Property.LUCAM_PROP_EXPOSURE 5 ⟨false, false⟩,
         Event.LucamStreamVideoControl 103 StreamCmd.START_STREAMING,
         Event.LucamGetVideoImageFormat 103,
         Event.LucamOneShotAutoWhiteBalance 103 0 0 4 2,
         Event.LucamDigitalWhiteBalance 103 0 0 4 2,
         Event.LucamStreamVideoControl 103 StreamCmd.STOP_STREAMING,
         Event.LucamSetProperty 103 Property.LUCAM_PROP_EXPOSURE 5 ⟨true, true⟩,
         Event.LucamGetProperty 103 Property.LUCAM_PROP_DIGITAL_GAIN_BLUE,
         Event.LucamGetProperty 103 Property.LUCAM_PROP_DIGITAL_GAIN_GREEN,
         Event.LucamGetProperty 103 Property.LUCAM_PROP_DIGITAL_GAIN_RED,
         Event.namedWindow ("Camera " ++ Nat.repr (3 : Int).toNat)] ++
        (if "edges" ≠ "" then
          [Event.namedWindow ("Camera " ++ Nat.repr (3 : Int).toNat ++ " - " ++ "edges")]
         else []) ∧
      s1.cam.streaming = false ∧
      s1.cam.m_unprocessedWindowName = "Camera 3" := by
  obtain ⟨s1, hret, hh, hi, ht, hw, _, _, _, _, _, _, hhue, hsat, hb, hg, hr, hworld, htrace,
      hs, _, _, hn, _⟩ :=
    init_configures_camera simSdk coldSys 3 "edges" 103 1 2 3 4 5 6 7 8 9 10 11 12 13
      { Size := 48, Width := 4, Height := 2, ImageSize := 8 } 3 1 2
      (by decide) (by decide) (by rfl) (by decide)
      (by rfl) (by rfl) (by rfl) (by rfl) (by rfl) (by rfl) (by rfl) (by rfl) (by rfl) (by rfl)
      (by rfl) (by rfl) (by rfl) (by rfl) (by rfl) (by rfl)
  exact ⟨s1, hret, hh, hi, ht, hw, hhue, hsat, hb, hg, hr, hworld, htrace, hs, hn⟩

/-! ## The hand-off protocol over sequences of calls -/

theorem startStreaming_buffer {W : Type} (sdk : Sdk W) (s : Sys W) :
    (Camera.startStreaming sdk s).cam.rgbImageOwnerIsProducer = s.cam.rgbImageOwnerIsProducer ∧
    (Camera.startStreaming sdk s).cam.rgbImage = s.cam.rgbImage := by
  cases hs : s.cam.streaming
  · cases h1 : (sdk.LucamStreamVideoControl s.cam.hCamera StreamCmd.START_STREAMING s.world).1
    · rw [startStreaming_of_refusal sdk s hs h1]
      exact ⟨rfl, rfl⟩
    · rw [startStreaming_of_success sdk s hs h1]
      exact ⟨rfl, rfl⟩
  · rw [startStreaming_of_streaming sdk s hs]
    exact ⟨rfl, rfl⟩

theorem stopStreaming_buffer {W : Type} (sdk : Sdk W) (s : Sys W) :
    (Camera.stopStreaming sdk s).cam.rgbImageOwnerIsProducer = s.cam.rgbImageOwnerIsProducer ∧
    (Camera.stopStreaming sdk s).cam.rgbImage = s.cam.rgbImage := by
  cases hs : s.cam.streaming
  · rw [stopStreaming_of_idle sdk s hs]
    exact ⟨rfl, rfl⟩
  · cases h1 : (sdk.LucamStreamVideoControl s.cam.hCamera StreamCmd.STOP_STREAMING s.world).1
    · rw [stopStreaming_of_refusal sdk s hs h1]
      exact ⟨rfl, rfl⟩
    · rw [stopStreaming_of_success sdk s hs h1]
      exact ⟨rfl, rfl⟩

theorem step_handOff {W : Type} (sdk : Sdk W) (r r1 : RunState W) (op : Op)
    (hop : ∀ raw length, op = Op.createRGBImage raw length → 1 ≤ length ∧ length ≤ INT_MAX)
    (hinv : HandOff r) (hstep : step sdk r op = .ok r1) : HandOff r1 := by
  cases op with
  | createRGBImage raw length =>
    obtain ⟨h1, hmax⟩ := hop raw length rfl
    simp only [step] at hstep
    cases hflag : r.sys.cam.rgbImageOwnerIsProducer
    · rw [createRGBImage_of_consumer sdk r.sys raw length hflag] at hstep
      simp only [hflag, Bool.false_eq_true, if_false, Except.ok.injEq] at hstep
      rw [← hstep]
      exact hinv
    · by_cases hn : wrapInt (length * 3) < 0
      · rw [createRGBImage_of_negative sdk r.sys raw length hflag hn] at hstep
        simp at hstep
      · rw [createRGBImage_of_producer sdk r.sys raw length hflag (by omega)] at hstep
        simp only [hflag, if_true, Except.ok.injEq] at hstep
        rw [← hstep]
        intro _
        refine ⟨length, rfl, h1, hmax, by omega, ?_⟩
        simp only [length_writeThrough, length_vectorResize]
        omega
  | releaseImage =>
    simp only [step, Except.ok.injEq] at hstep
    rw [← hstep]
    intro hfalse
    simp [Camera.releaseImage] at hfalse
  | getImage =>
    simp only [step, Except.ok.injEq] at hstep
    rw [← hstep]
    exact hinv
  | startStreaming =>
    simp only [step, Except.ok.injEq] at hstep
    rw [← hstep]
    obtain ⟨hf, hb⟩ := startStreaming_buffer sdk r.sys
    unfold HandOff
    simp only [hf, hb]
    exact hinv
  | stopStreaming =>
    simp only [step, Except.ok.injEq] at hstep
    rw [← hstep]
    obtain ⟨hf, hb⟩ := stopStreaming_buffer sdk r.sys
    unfold HandOff
    simp only [hf, hb]
    exact hinv

theorem step_returns {W : Type} (sdk : Sdk W) (r : RunState W) (op : Op)
    (hop : ∀ raw length, op = Op.createRGBImage raw length →
      1 ≤ length ∧ 3 * length ≤ INT_MAX) :
    ∃ r1, step sdk r op = .ok r1 := by
  cases op with
  | createRGBImage raw length =>
    obtain ⟨h1, h3⟩ := hop raw length rfl
    simp only [step]
    cases hflag : r.sys.cam.rgbImageOwnerIsProducer
    · rw [createRGBImage_of_consumer sdk r.sys raw length hflag]
      exact ⟨_, rfl⟩
    · rw [createRGBImage_of_producer sdk r.sys raw length hflag
        (by rw [wrapInt_triple length h1 h3]; omega)]
      exact ⟨_, rfl⟩
  | releaseImage => exact ⟨_, rfl⟩
  | getImage => exact ⟨_, rfl⟩
  | startStreaming => exact ⟨_, rfl⟩
  | stopStreaming => exact ⟨_, rfl⟩

theorem run_handOff {W : Type} (sdk : Sdk W) (ops : List Op) :
    ∀ r r1 : RunState W,
      (∀ raw length, Op.createRGBImage raw length ∈ ops → 1 ≤ length ∧ length ≤ INT_MAX) →
      HandOff r → run sdk ops r = .ok r1 → HandOff r1 := by
  induction ops with
  | nil =>
    intro r r1 _ hinv hrun
    simp only [run, Except.ok.injEq] at hrun
    rw [← hrun]
    exact hinv
  | cons op ops ih =>
    intro r r1 hops hinv hrun
    unfold run at hrun
    cases hstep : step sdk r op with
    | error f => simp [hstep] at hrun
    | ok r2 =>
      simp only [hstep] at hrun
      refine ih r2 r1 (fun raw length hm => hops raw length (List.mem_cons_of_mem _ hm))
        (step_handOff sdk r r2 op ?_ hinv hstep) hrun
      intro raw length hop
      exact hops raw length (by rw [hop]; exact List.mem_cons_self _ _)

theorem run_returns {W : Type} (sdk : Sdk W) (ops : List Op) :
    ∀ r : RunState W,
      (∀ raw length, Op.createRGBImage raw length ∈ ops →
        1 ≤ length ∧ 3 * length ≤ INT_MAX) →
      ∃ r1, run sdk ops r = .ok r1 := by
  induction ops with
  | nil => intro r _; exact ⟨r, rfl⟩
  | cons op ops ih =>
    intro r hops
    obtain ⟨r2, hstep⟩ := step_returns sdk r op (fun raw length hop =>
      hops raw length (by rw [hop]; exact List.mem_cons_self _ _))
    obtain ⟨r1, hrun⟩ := ih r2 (fun raw length hm =>
      hops raw length (List.mem_cons_of_mem _ hm))
    refine ⟨r1, ?_⟩
    unfold run
    simp only [hstep]
    exact hrun

theorem run_single_createRGBImage {W : Type} (sdk : Sdk W) (r : RunState W) (raw : List BYTE)
    (length : Int) (hflag : r.sys.cam.rgbImageOwnerIsProducer = true)
    (hn : 0 ≤ wrapInt (length * 3)) :
    (run sdk [Op.createRGBImage raw length] r).map
        (fun r => (r.sys.cam.rgbImageOwnerIsProducer, r.lastLength, r.sys.cam.rgbImage.length))
      = .ok (false, some length, (wrapInt (length * 3)).toNat) := by
  simp only [run, step]
  rw [createRGBImage_of_producer sdk r.sys raw length hflag hn]
  simp only [hflag, if_true, Except.map, length_writeThrough, length_vectorResize]

/-- C10, as stated, fails: a single `createRGBImage` call on a fresh object
with `length = 1500000000`, which is at least 1, returns with the flag false
and a buffer of 205032704 bytes, the 32-bit product `length * 3`, which is
not 3 times the length passed. -/
theorem handOff_size_counterexample :
    (run simSdk [Op.createRGBImage [] 1500000000] (fresh fmt0 cp0 0)).map
        (fun r => (r.sys.cam.rgbImageOwnerIsProducer, r.lastLength, r.sys.cam.rgbImage.length))
      = .ok (false, some 1500000000, 205032704) ∧
    (1 : Int) ≤ 1500000000 ∧ (1500000000 : Int) ≤ INT_MAX ∧
    ((205032704 : Nat) : Int) ≠ 3 * 1500000000 := by
  have hw : wrapInt (1500000000 * 3) = 205032704 := by
    unfold wrapInt
    norm_num
  have ht : (205032704 : Int).toNat = 205032704 := by rfl
  have hrun := run_single_createRGBImage simSdk (fresh fmt0 cp0 0) [] 1500000000 rfl
    (by rw [hw]; norm_num)
  rw [hw, ht] at hrun
  exact ⟨hrun, by norm_num, by unfold INT_MAX; norm_num, by norm_num⟩

/-- C10, amended: take any finite sequence of `createRGBImage` (each with an
`int` length of at least 1), `releaseImage`, `getImage`, `startStreaming` and
`stopStreaming` calls on a freshly constructed object. If every `3 * length`
is representable as `int`, the sequence runs to its end. In every state it
ends in, if `rgbImageOwnerIsProducer` is false then `rgbImage` is non-empty,
its size is the 32-bit product `length * 3` for the length passed to the most
recent `createRGBImage` that was not dropped, and that is 3 times the length
whenever `3 * length` is representable as `int`; and whenever `getImage`
returns a non-null pointer, the element it addresses exists. -/
theorem handOff_invariant {W : Type} (sdk : Sdk W) (fmt : LUCAM_IMAGE_FORMAT)
    (cp : LUCAM_CONVERSION_PARAMS) (w : W) (ops : List Op)
    (hlen : ∀ raw length, Op.createRGBImage raw length ∈ ops → 1 ≤ length ∧ length ≤ INT_MAX) :
    ((∀ raw length, Op.createRGBImage raw length ∈ ops → 3 * length ≤ INT_MAX) →
      ∃ r, run sdk ops (fresh fmt cp w) = .ok r) ∧
    (∀ r, run sdk ops (fresh fmt cp w) = .ok r →
      (r.sys.cam.rgbImageOwnerIsProducer = false →
        r.sys.cam.rgbImage ≠ [] ∧
        ∃ length : Int, r.lastLength = some length ∧ 1 ≤ length ∧
          (r.sys.cam.rgbImage.length : Int) = wrapInt (length * 3) ∧
          (3 * length ≤ INT_MAX → (r.sys.cam.rgbImage.length : Int) = 3 * length)) ∧
      (Camera.getImage r.sys.cam ≠ Ptr.null →
        Ptr.valid r.sys.cam (Camera.getImage r.sys.cam) = true)) := by
  constructor
  · intro h3
    exact run_returns sdk ops (fresh fmt cp w)
      (fun raw length hm => ⟨(hlen raw length hm).1, h3 raw length hm⟩)
  · intro r hrun
    have hfresh : HandOff (fresh fmt cp w) := by
      intro hfalse
      simp [fresh, Camera.Camera] at hfalse
    have hinv := run_handOff sdk ops (fresh fmt cp w) r hlen hfresh hrun
    have hnonempty : r.sys.cam.rgbImageOwnerIsProducer = false → 0 < r.sys.cam.rgbImage.length := by
      intro hfalse
      obtain ⟨length, _, h1, hmax, h0, hsize⟩ := hinv hfalse
      have hne := wrapInt_triple_ne_zero length h1 hmax
      omega
    constructor
    · intro hfalse
      obtain ⟨length, hlast, h1, hmax, h0, hsize⟩ := hinv hfalse
      refine ⟨List.ne_nil_of_length_pos (hnonempty hfalse), length, hlast, h1, hsize, ?_⟩
      intro h3
      rw [hsize, wrapInt_triple length h1 h3]
    · intro hptr
      cases hflag : r.sys.cam.rgbImageOwnerIsProducer
      · cases hstorage : r.sys.cam.rgbImageStorage
        · simp [Camera.getImage, hflag, hstorage] at hptr
        · simp only [Camera.getImage, hflag, hstorage, Bool.false_eq_true, if_false, if_true,
            Ptr.valid, decide_eq_true_eq]
          exact hnonempty hflag
      · simp [Camera.getImage, hflag] at hptr

/-- The amended C10 on the simulated device: a frame is converted, fetched
and released, a second frame is converted, and streaming is started. -/
theorem handOff_invariant_witness :
    ∃ r, run simSdk [Op.createRGBImage [1, 2, 3] 1, Op.getImage, Op.releaseImage,
          Op.createRGBImage [4, 5, 6, 7, 8, 9] 2, Op.startStreaming] (fresh fmt0 cp0 1) = .ok r ∧
      r.sys.cam.rgbImageOwnerIsProducer = false ∧
      r.sys.cam.rgbImage ≠ [] ∧
      Ptr.valid r.sys.cam (Camera.getImage r.sys.cam) = true := by
  have hops : ∀ raw length, Op.createRGBImage raw length ∈
      [Op.createRGBImage [1, 2, 3] 1, Op.getImage, Op.releaseImage,
        Op.createRGBImage [4, 5, 6, 7, 8, 9] 2, Op.startStreaming] →
      1 ≤ length ∧ length ≤ INT_MAX := by
    intro raw length hm
    simp at hm
    rcases hm with ⟨_, h⟩ | ⟨_, h⟩ <;> rw [h] <;> decide
  have hmain := handOff_invariant simSdk fmt0 cp0 1 _ hops
  have hflag : (run simSdk [Op.createRGBImage [1, 2, 3] 1, Op.getImage, Op.releaseImage,
      Op.createRGBImage [4, 5, 6, 7, 8, 9] 2, Op.startStreaming] (fresh fmt0 cp0 1)).map
        (fun r => r.sys.cam.rgbImageOwnerIsProducer) = .ok false := by rfl
  obtain ⟨r, hrun⟩ := hmain.1 (by
    intro raw length hm
    simp at hm
    rcases hm with ⟨_, h⟩ | ⟨_, h⟩ <;> rw [h] <;> decide)
  have hptr : (run simSdk [Op.createRGBImage [1, 2, 3] 1, Op.getImage, Op.releaseImage,
      Op.createRGBImage [4, 5, 6, 7, 8, 9] 2, Op.startStreaming] (fresh fmt0 cp0 1)).map
        (fun r => Camera.getImage r.sys.cam) = .ok (Ptr.rgbImage 0) := by rfl
  rw [hrun] at hflag hptr
  simp only [Except.map, Except.ok.injEq] at hflag hptr
  have hfacts := hmain.2 r hrun
  have hget : Camera.getImage r.sys.cam ≠ Ptr.null := by
    rw [hptr]
    exact Ptr.noConfusion
  exact ⟨r, hrun, hflag, (hfacts.1 hflag).1, hfacts.2 hget⟩

end Lumenera
